import Mathlib

/-!
Shallow embedding of the coal-ash marketplace backend
(`src/backend/server.py`): data model, order engine, matcher and
analytics aggregator, with theorems checking the specification's
claims against the code.

Conventions of the embedding:
* MongoDB collections become Lean lists of records; `find_one(filter)`
  becomes `List.find?` (first match), `update_one` updates the first
  matching document only, `insert_one` appends.
* Python `int` fields become `Int` (pydantic places no bounds on them);
  `float` money fields become `ℚ` (the code only multiplies and adds,
  so the algebraic identities under check are representable exactly).
* `datetime` fields become `Nat` timestamps; `dict` fields become
  association lists.
* An endpoint that can raise `HTTPException` becomes a function
  returning the (possibly unchanged) database together with an
  `Except` value, mirroring the code's control flow: every `raise`
  happens before any write.
-/

set_option autoImplicit false

namespace CoalAsh

/-- `UserRole` enum from the source. -/
inductive UserRole where
  | supplier
  | buyer
  | logistics
  | admin
  deriving DecidableEq, Repr

/-- `CoalAshType` enum from the source. -/
inductive CoalAshType where
  | fly_ash
  | bottom_ash
  | pond_ash
  deriving DecidableEq, Repr

/-- `OrderStatus` enum from the source. -/
inductive OrderStatus where
  | pending
  | confirmed
  | in_transit
  | delivered
  | cancelled
  deriving DecidableEq, Repr

/-- `User` model (fields relevant to the core; password hash and
timestamps of the auth layer are outside the verified core). -/
structure User where
  id : String
  email : String
  company : String
  contact_person : String
  phone : String
  role : UserRole
  address : String
  city : String
  state : String
  kyc_verified : Bool
  deriving DecidableEq, Repr

/-- `CoalAshProduct` model from the source. -/
structure CoalAshProduct where
  id : String
  supplier_id : String
  title : String
  ash_type : CoalAshType
  quantity_available : Int
  price_per_ton : ℚ
  location : String
  city : String
  state : String
  quality_specs : List (String × String)
  test_report_url : Option String
  description : String
  is_active : Bool
  created_at : Nat
  updated_at : Nat
  deriving DecidableEq, Repr

/-- `DemandRequest` model from the source. -/
structure DemandRequest where
  id : String
  buyer_id : String
  title : String
  ash_type : CoalAshType
  quantity_required : Int
  max_price_per_ton : ℚ
  delivery_location : String
  delivery_city : String
  delivery_state : String
  required_by : Nat
  quality_requirements : List (String × String)
  description : String
  is_active : Bool
  created_at : Nat
  deriving DecidableEq, Repr

/-- `Order` model from the source. -/
structure Order where
  id : String
  buyer_id : String
  supplier_id : String
  product_id : String
  demand_id : Option String
  quantity : Int
  agreed_price_per_ton : ℚ
  total_amount : ℚ
  delivery_address : String
  status : OrderStatus
  contract_terms : Option String
  created_at : Nat
  updated_at : Nat
  deriving DecidableEq, Repr

/-- `OrderCreate` request body from the source. -/
structure OrderCreate where
  product_id : String
  quantity : Int
  delivery_address : String
  contract_terms : Option String
  deriving DecidableEq, Repr

/-- The document store: the four collections the core touches. -/
structure DB where
  users : List User
  products : List CoalAshProduct
  demands : List DemandRequest
  orders : List Order
  deriving DecidableEq, Repr

/-- Error taxonomy of `create_order` (the `HTTPException`s it raises:
403 non-buyer, 404 product missing, 400 insufficient quantity). -/
inductive OrderError where
  | forbidden
  | notFound
  | insufficientInventory
  deriving DecidableEq, Repr

/-- Mongo `update_one` semantics: rewrite the first document matching
the filter, leave the rest untouched. -/
def updateFirst {α : Type} (filt : α → Bool) (g : α → α) : List α → List α
  | [] => []
  | x :: xs => if filt x then g x :: xs else x :: updateFirst filt g xs

/-- The order document built by `create_order` on the success path
(lines 358–365): request fields plus `buyer_id` from the caller,
`supplier_id` and the price snapshot from the product, and
`total_amount = product.price_per_ton * quantity`. -/
def newOrder (current_user : User) (order_data : OrderCreate)
    (product : CoalAshProduct) (new_id : String) (now : Nat) : Order :=
  { id := new_id
    buyer_id := current_user.id
    supplier_id := product.supplier_id
    product_id := order_data.product_id
    demand_id := none
    quantity := order_data.quantity
    agreed_price_per_ton := product.price_per_ton
    total_amount := product.price_per_ton * (order_data.quantity : ℚ)
    delivery_address := order_data.delivery_address
    status := .pending
    contract_terms := order_data.contract_terms
    created_at := now
    updated_at := now }

/-- `create_order` from `src/backend/server.py` (lines 336–374):
role gate, product lookup by id, inventory check, order insertion and
`$inc` decrement of `quantity_available` on the first matching product
document. `new_id` and `now` stand for the generated uuid and the
current time. The input database is returned unchanged alongside the
error whenever the endpoint raises. -/
def create_order (db : DB) (current_user : User) (order_data : OrderCreate)
    (new_id : String) (now : Nat) : DB × Except OrderError Order :=
  if current_user.role ≠ UserRole.buyer then
    (db, .error .forbidden)
  else
    match db.products.find? (fun p => p.id == order_data.product_id) with
    | none => (db, .error .notFound)
    | some product =>
      if product.quantity_available < order_data.quantity then
        (db, .error .insufficientInventory)
      else
        let order : Order := newOrder current_user order_data product new_id now
        let db' : DB :=
          { db with
            orders := db.orders ++ [order]
            products := updateFirst (fun p => p.id == order_data.product_id)
              (fun p => { p with quantity_available := p.quantity_available - order_data.quantity })
              db.products }
        (db', .ok order)

/-- Buyer-side matching filter of `get_matching_suggestions`
(lines 459–464): the Mongo query on `products` issued for one of the
buyer's demands. -/
def buyerMatchPred (demand : DemandRequest) (p : CoalAshProduct) : Bool :=
  p.ash_type == demand.ash_type
    && demand.quantity_required ≤ p.quantity_available
    && p.price_per_ton ≤ demand.max_price_per_ton
    && p.is_active

/-- Supplier-side matching filter of `get_matching_suggestions`
(lines 477–482): the Mongo query on `demands` issued for one of the
supplier's products. -/
def supplierMatchPred (product : CoalAshProduct) (d : DemandRequest) : Bool :=
  d.ash_type == product.ash_type
    && d.quantity_required ≤ product.quantity_available
    && d.max_price_per_ton ≥ product.price_per_ton
    && d.is_active

/-- The products matched to a demand in the buyer branch:
`find(query).to_list(10)`, i.e. the first 10 documents satisfying the
filter, in store order. -/
def matching_products_for (db : DB) (demand : DemandRequest) : List CoalAshProduct :=
  (db.products.filter (buyerMatchPred demand)).take 10

/-- The demands matched to a product in the supplier branch:
`find(query).to_list(10)`. -/
def matching_demands_for (db : DB) (product : CoalAshProduct) : List DemandRequest :=
  (db.demands.filter (supplierMatchPred product)).take 10

/-- One element of the `suggestions` list returned by
`get_matching_suggestions`: either a demand anchor with its matching
products (buyer branch) or a product anchor with its matching demands
(supplier branch). -/
inductive Suggestion where
  | buyerGroup (demand : DemandRequest) (matching_products : List CoalAshProduct)
  | supplierGroup (product : CoalAshProduct) (matching_demands : List DemandRequest)
  deriving DecidableEq, Repr

/-- Number of matched counterpart entities carried by a suggestion
group. -/
def Suggestion.counterpartCount : Suggestion → Nat
  | .buyerGroup _ ps => ps.length
  | .supplierGroup _ ds => ds.length

/-- `get_matching_suggestions` from the source (lines 450–490):
for a buyer, one group per own active demand that has at least one
matching product; for a supplier, one group per own active product
that has at least one matching demand; every other role gets the
empty list. -/
def get_matching_suggestions (db : DB) (current_user : User) : List Suggestion :=
  if current_user.role = UserRole.buyer then
    (db.demands.filter (fun d => d.buyer_id == current_user.id && d.is_active)).filterMap
      (fun d =>
        let mp := matching_products_for db d
        if mp.isEmpty then none else some (.buyerGroup d mp))
  else if current_user.role = UserRole.supplier then
    (db.products.filter (fun p => p.supplier_id == current_user.id && p.is_active)).filterMap
      (fun p =>
        let md := matching_demands_for db p
        if md.isEmpty then none else some (.supplierGroup p md))
  else
    []

/-- Sum of `total_amount` over a list of orders: the
`$group`/`$sum` aggregation used by the dashboard. -/
def sumTotalAmount (orders : List Order) : ℚ :=
  orders.foldl (fun acc o => acc + o.total_amount) 0

/-- Result of the `$match` + `$group` revenue pipeline: Mongo's
`$group` over an empty match set yields no documents at all, hence the
empty list; otherwise a single document holding the sum. -/
def revenue_pipeline (orders : List Order) (owner_filter : Order → Bool) : List ℚ :=
  let matched := orders.filter owner_filter
  if matched.isEmpty then [] else [sumTotalAmount matched]

/-- The `xs[0]["total"] if xs else 0` idiom applied to the pipeline
result: first group's sum, or 0 when the pipeline produced nothing. -/
def pipelineHead (xs : List ℚ) : ℚ :=
  match xs with
  | [] => 0
  | t :: _ => t

/-- Insertion of one order into a list sorted by `created_at`
descending. -/
def insertByCreatedDesc (o : Order) : List Order → List Order
  | [] => [o]
  | x :: xs =>
    if x.created_at ≤ o.created_at then o :: x :: xs
    else x :: insertByCreatedDesc o xs

/-- `sort("created_at", -1)`: sort by creation time, most recent
first. -/
def sortByCreatedDesc : List Order → List Order
  | [] => []
  | x :: xs => insertByCreatedDesc x (sortByCreatedDesc xs)

/-- The role-scoped summary objects returned by
`get_dashboard_analytics`. -/
inductive Dashboard where
  | adminBoard (total_users total_products total_orders total_demands : Nat)
      (recent_orders : List Order)
  | supplierBoard (my_products my_orders : Nat) (total_revenue : ℚ)
      (recent_orders : List Order)
  | buyerBoard (my_demands my_orders : Nat) (total_spent : ℚ)
      (recent_orders : List Order)
  deriving DecidableEq, Repr

/-- `get_dashboard_analytics` from the source (lines 391–447).
The function body is an `if`/`elif` chain over admin, supplier and
buyer with no final `else`: any other role falls off the end of the
Python function and returns `None`, modelled as `none`. The
`total_revenue[0]["total"] if total_revenue else 0` pattern is kept as
a match on the pipeline result. -/
def get_dashboard_analytics (db : DB) (current_user : User) : Option Dashboard :=
  if current_user.role = UserRole.admin then
    some (.adminBoard
      db.users.length
      (db.products.filter (fun p => p.is_active)).length
      db.orders.length
      (db.demands.filter (fun d => d.is_active)).length
      ((sortByCreatedDesc db.orders).take 5))
  else if current_user.role = UserRole.supplier then
    let total_revenue := revenue_pipeline db.orders (fun o => o.supplier_id == current_user.id)
    some (.supplierBoard
      (db.products.filter (fun p => p.supplier_id == current_user.id)).length
      (db.orders.filter (fun o => o.supplier_id == current_user.id)).length
      (pipelineHead total_revenue)
      ((sortByCreatedDesc (db.orders.filter (fun o => o.supplier_id == current_user.id))).take 5))
  else if current_user.role = UserRole.buyer then
    let total_spent := revenue_pipeline db.orders (fun o => o.buyer_id == current_user.id)
    some (.buyerBoard
      (db.demands.filter (fun d => d.buyer_id == current_user.id)).length
      (db.orders.filter (fun o => o.buyer_id == current_user.id)).length
      (pipelineHead total_spent)
      ((sortByCreatedDesc (db.orders.filter (fun o => o.buyer_id == current_user.id))).take 5))
  else
    none

/-! Concrete fixtures, used by witnesses and counterexamples. -/

/-- A buyer account. -/
def buyerU : User :=
  { id := "buyer-1", email := "buyer@example.com", company := "CementCo"
    contact_person := "B. Uyer", phone := "1", role := .buyer
    address := "A", city := "C", state := "S", kyc_verified := false }

/-- A supplier account. -/
def supplierU : User :=
  { buyerU with id := "supp-1", email := "supp@example.com", role := .supplier }

/-- A logistics account. -/
def logisticsU : User :=
  { buyerU with id := "log-1", email := "log@example.com", role := .logistics }

/-- An active fly-ash product: 100 tons at 50 per ton. -/
def prodA : CoalAshProduct :=
  { id := "prod-1", supplier_id := "supp-1", title := "Fly ash lot"
    ash_type := .fly_ash, quantity_available := 100, price_per_ton := 50
    location := "Plant", city := "C", state := "S", quality_specs := []
    test_report_url := none, description := "d", is_active := true
    created_at := 0, updated_at := 0 }

/-- A deactivated product that still has stock. -/
def prodInactive : CoalAshProduct :=
  { prodA with id := "prod-2", quantity_available := 10, is_active := false }

/-- A product whose stock has reached zero. -/
def prodZero : CoalAshProduct :=
  { prodA with id := "prod-z", quantity_available := 0 }

/-- An active demand compatible with `prodA`: 80 tons at up to 60. -/
def demand80 : DemandRequest :=
  { id := "dem-80", buyer_id := "buyer-1", title := "Need fly ash"
    ash_type := .fly_ash, quantity_required := 80, max_price_per_ton := 60
    delivery_location := "Site", delivery_city := "C", delivery_state := "S"
    required_by := 0, quality_requirements := [], description := "d"
    is_active := true, created_at := 0 }

/-- Store with one product, one matching demand and no orders. -/
def db1 : DB :=
  { users := [buyerU, supplierU], products := [prodA]
    demands := [demand80], orders := [] }

/-- Store holding only the inactive product. -/
def dbInactive : DB :=
  { users := [buyerU], products := [prodInactive], demands := [], orders := [] }

/-- Store holding only the sold-out product. -/
def dbZero : DB :=
  { users := [buyerU], products := [prodZero], demands := [], orders := [] }

/-- Order body asking 150 tons of `prodA` — more than available. -/
def od150 : OrderCreate :=
  { product_id := "prod-1", quantity := 150
    delivery_address := "Site", contract_terms := none }

/-- Order body asking 30 tons of `prodA`. -/
def od30 : OrderCreate := { od150 with quantity := 30 }

/-- Order body asking −5 tons of `prodA`. -/
def odNeg5 : OrderCreate := { od150 with quantity := -5 }

/-- Order body asking 1 ton of the inactive product. -/
def odInactive1 : OrderCreate := { od150 with product_id := "prod-2", quantity := 1 }

/-- Order body asking 0 tons of the sold-out product. -/
def odZero0 : OrderCreate := { od150 with product_id := "prod-z", quantity := 0 }

/-- Order body asking 5 tons of the sold-out product. -/
def odZero5 : OrderCreate := { od150 with product_id := "prod-z", quantity := 5 }

/-- The i-th of a family of identical active demands, each compatible
with `prodA`. -/
def mkMatchingDemand (i : Nat) : DemandRequest :=
  { demand80 with id := "dem-" ++ toString i }

/-- Store with one product and eleven demands matching it: more
matching demands than the 10-element cap of the matcher. -/
def db11 : DB :=
  { users := [buyerU, supplierU], products := [prodA]
    demands := (List.range 11).map mkMatchingDemand, orders := [] }

/-! Helper lemmas shared by the claim theorems. -/

/-- `find?` after `updateFirst` with the same filter: the first hit is
the rewritten document, provided the rewrite preserves the filter. -/
theorem find?_updateFirst {α : Type} (filt : α → Bool) (g : α → α)
    (hpres : ∀ x, filt x = true → filt (g x) = true) :
    ∀ l : List α, (updateFirst filt g l).find? filt = (l.find? filt).map g := by
  intro l
  induction l with
  | nil => rfl
  | cons x xs ih =>
    by_cases hx : filt x = true
    · simp [updateFirst, hx, List.find?_cons_of_pos, hpres x hx]
    · rw [updateFirst]
      simp only [hx, if_false, Bool.false_eq_true]
      rw [List.find?_cons_of_neg _ (by simp [hx]),
        List.find?_cons_of_neg _ (by simp [hx]), ih]

/-- `create_order` on the success path, in closed form. -/
theorem create_order_ok_eq (db : DB) (u : User) (od : OrderCreate)
    (nid : String) (now : Nat) (p : CoalAshProduct)
    (hr : u.role = UserRole.buyer)
    (hfind : db.products.find? (fun q => q.id == od.product_id) = some p)
    (hq : ¬ p.quantity_available < od.quantity) :
    create_order db u od nid now =
      ({ db with
          orders := db.orders ++ [newOrder u od p nid now]
          products := updateFirst (fun q => q.id == od.product_id)
            (fun q => { q with quantity_available := q.quantity_available - od.quantity })
            db.products },
        .ok (newOrder u od p nid now)) := by
  simp [create_order, hr, hfind, hq]

/-- The dashboard's `total_revenue[0]["total"] if total_revenue else 0`
equals the plain sum over the owner's orders. -/
theorem revenue_head_eq_sum (orders : List Order) (f : Order → Bool) :
    pipelineHead (revenue_pipeline orders f) = sumTotalAmount (orders.filter f) := by
  unfold revenue_pipeline
  by_cases h : (orders.filter f).isEmpty
  · rw [if_pos h]
    rw [List.isEmpty_iff] at h
    simp [h, sumTotalAmount, pipelineHead]
  · rw [if_neg h]
    rfl

/-! Claim theorems. -/

/-- C1: a buyer's `create_order` call on an existing product whose
`quantity_available` is below the requested quantity fails with
`InsufficientInventory`, leaves the whole store (in particular the
product document) unchanged, and creates no order record. -/
theorem createOrder_insufficientInventory_no_mutation
    (db : DB) (u : User) (od : OrderCreate) (nid : String) (now : Nat)
    (p : CoalAshProduct)
    (hr : u.role = UserRole.buyer)
    (hfind : db.products.find? (fun q => q.id == od.product_id) = some p)
    (hq : p.quantity_available < od.quantity) :
    create_order db u od nid now = (db, .error .insufficientInventory) := by
  simp [create_order, hr, hfind, hq]

/-- Witness for C1: the spec's own scenario — ordering 150 tons from a
product with 100 available fails and changes nothing. -/
theorem createOrder_insufficientInventory_no_mutation_witness :
    create_order db1 buyerU od150 "ord-1" 0 = (db1, .error .insufficientInventory) :=
  createOrder_insufficientInventory_no_mutation db1 buyerU od150 "ord-1" 0 prodA
    rfl (by decide) (by decide)

/-- C3: every order returned by a successful `create_order` call has
status `pending`, `agreed_price_per_ton` snapshotted from the product
found at order time, and `total_amount` equal to
`agreed_price_per_ton * quantity`. -/
theorem createOrder_result_fields
    (db : DB) (u : User) (od : OrderCreate) (nid : String) (now : Nat)
    (o : Order)
    (hok : (create_order db u od nid now).2 = .ok o) :
    o.status = .pending
      ∧ o.total_amount = o.agreed_price_per_ton * (o.quantity : ℚ)
      ∧ ∃ p, db.products.find? (fun q => q.id == od.product_id) = some p
          ∧ o.agreed_price_per_ton = p.price_per_ton := by
  by_cases hr : u.role = UserRole.buyer
  · cases hfind : db.products.find? (fun q => q.id == od.product_id) with
    | none => simp [create_order, hr, hfind] at hok
    | some p =>
      by_cases hq : p.quantity_available < od.quantity
      · simp [create_order, hr, hfind, hq] at hok
      · simp [create_order, hr, hfind, hq] at hok
        exact ⟨by simp [← hok, newOrder], by simp [← hok, newOrder],
          p, rfl, by simp [← hok, newOrder]⟩
  · simp [create_order, hr] at hok

/-- Witness for C3: the 30-ton order of the spec's scenario. -/
theorem createOrder_result_fields_witness :
    (newOrder buyerU od30 prodA "ord-1" 7).status = .pending
      ∧ (newOrder buyerU od30 prodA "ord-1" 7).total_amount
          = (newOrder buyerU od30 prodA "ord-1" 7).agreed_price_per_ton
              * ((newOrder buyerU od30 prodA "ord-1" 7).quantity : ℚ)
      ∧ ∃ p, db1.products.find? (fun q => q.id == od30.product_id) = some p
          ∧ (newOrder buyerU od30 prodA "ord-1" 7).agreed_price_per_ton
              = p.price_per_ton :=
  createOrder_result_fields db1 buyerU od30 "ord-1" 7
    (newOrder buyerU od30 prodA "ord-1" 7) (by rfl)

/-- C4: after a successful order of quantity Q on a product found with
availability A, the product document looked up by the same id is the
old document with `quantity_available` replaced by `A - Q` and every
other field untouched. -/
theorem createOrder_decrement_frame
    (db : DB) (u : User) (od : OrderCreate) (nid : String) (now : Nat)
    (p : CoalAshProduct) (db' : DB) (o : Order)
    (hfind : db.products.find? (fun q => q.id == od.product_id) = some p)
    (hok : create_order db u od nid now = (db', .ok o)) :
    db'.products.find? (fun q => q.id == od.product_id)
      = some { p with quantity_available := p.quantity_available - od.quantity } := by
  by_cases hr : u.role = UserRole.buyer
  · by_cases hq : p.quantity_available < od.quantity
    · simp [create_order, hr, hfind, hq] at hok
    · rw [create_order_ok_eq db u od nid now p hr hfind hq] at hok
      have hdb : db' = { db with
          orders := db.orders ++ [newOrder u od p nid now]
          products := updateFirst (fun q => q.id == od.product_id)
            (fun q => { q with quantity_available := q.quantity_available - od.quantity })
            db.products } := by
        exact (Prod.mk.injEq _ _ _ _ ▸ hok).1.symm
      rw [hdb]
      rw [find?_updateFirst (fun q => q.id == od.product_id)
        (fun q => { q with quantity_available := q.quantity_available - od.quantity })
        (fun x hx => hx) db.products, hfind]
      rfl
  · simp [create_order, hr] at hok

/-- Witness for C4: the 30-ton order against 100 tons leaves 70. -/
theorem createOrder_decrement_frame_witness :
    (create_order db1 buyerU od30 "ord-1" 7).1.products.find?
        (fun q => q.id == od30.product_id)
      = some { prodA with quantity_available := prodA.quantity_available - od30.quantity } :=
  createOrder_decrement_frame db1 buyerU od30 "ord-1" 7 prodA
    (create_order db1 buyerU od30 "ord-1" 7).1
    (newOrder buyerU od30 prodA "ord-1" 7) (by decide) (by rfl)

/-- C2 counterexample: `create_order` never consults `is_active`. A
buyer's order of 1 ton against an existing product whose `is_active`
is `false` succeeds and inserts an order record, refuting the claim
that a call on an inactive product creates no order. -/
theorem createOrder_ignores_isActive_counterexample :
    prodInactive.is_active = false
      ∧ dbInactive.products.find? (fun q => q.id == odInactive1.product_id)
          = some prodInactive
      ∧ odInactive1.quantity ≤ prodInactive.quantity_available
      ∧ (create_order dbInactive buyerU odInactive1 "ord-1" 0).2.isOk = true
      ∧ (create_order dbInactive buyerU odInactive1 "ord-1" 0).1.orders.length = 1 := by
  decide

/-- C2 amended: `create_order` succeeds exactly when the caller is a
buyer, the product exists, and the quantity is at most the product's
availability — `is_active` is not part of the check, so orders against
inactive products are created; every failing call leaves the store
unchanged (no order is created). -/
theorem createOrder_success_characterisation
    (db : DB) (u : User) (od : OrderCreate) (nid : String) (now : Nat) :
    ((create_order db u od nid now).2.isOk = true ↔
      u.role = UserRole.buyer
        ∧ ∃ p, db.products.find? (fun q => q.id == od.product_id) = some p
            ∧ od.quantity ≤ p.quantity_available)
    ∧ (∀ e, (create_order db u od nid now).2 = Except.error e
        → (create_order db u od nid now).1 = db) := by
  by_cases hr : u.role = UserRole.buyer
  · cases hfind : db.products.find? (fun q => q.id == od.product_id) with
    | none => simp [create_order, hr, hfind, Except.isOk, Except.toBool]
    | some p =>
      by_cases hq : p.quantity_available < od.quantity
      · simp [create_order, hr, hfind, hq, Except.isOk, Except.toBool]
      · simp [create_order, hr, hfind, hq, Except.isOk, Except.toBool]
        omega
  · simp [create_order, hr, Except.isOk, Except.toBool]

/-- Witness for C2 amended: the inactive-product order of the
counterexample is accepted by the characterisation. -/
theorem createOrder_success_characterisation_witness :
    (create_order dbInactive buyerU odInactive1 "ord-1" 0).2.isOk = true :=
  (createOrder_success_characterisation dbInactive buyerU odInactive1 "ord-1" 0).1.mpr
    ⟨rfl, prodInactive, by decide, by decide⟩

/-- C6 counterexample: the inventory check is
`quantity_available < quantity`, so a buyer's order of 0 tons against
a product with `quantity_available = 0` validates and creates an order
record, refuting the claim that every call against a sold-out product
fails. -/
theorem createOrder_zeroQuantity_validates_counterexample :
    prodZero.quantity_available = 0
      ∧ dbZero.products.find? (fun q => q.id == odZero0.product_id) = some prodZero
      ∧ (create_order dbZero buyerU odZero0 "ord-1" 0).2.isOk = true
      ∧ (create_order dbZero buyerU odZero0 "ord-1" 0).1.orders.length = 1 := by
  decide

/-- C6 amended: once a product's `quantity_available` is 0, every
`create_order` call against it with a positive quantity fails (with
`InsufficientInventory` for a buyer, `Forbidden` otherwise) and leaves
the store unchanged; calls with quantity ≤ 0 still validate. -/
theorem createOrder_soldOut_positive_fails
    (db : DB) (u : User) (od : OrderCreate) (nid : String) (now : Nat)
    (p : CoalAshProduct)
    (hfind : db.products.find? (fun q => q.id == od.product_id) = some p)
    (hzero : p.quantity_available = 0)
    (hpos : 0 < od.quantity) :
    ∃ e, create_order db u od nid now = (db, .error e) := by
  by_cases hr : u.role = UserRole.buyer
  · have hq : p.quantity_available < od.quantity := by omega
    exact ⟨.insufficientInventory, by simp [create_order, hr, hfind, hq]⟩
  · exact ⟨.forbidden, by simp [create_order, hr]⟩

/-- Witness for C6 amended: ordering 5 tons of the sold-out product
fails without touching the store. -/
theorem createOrder_soldOut_positive_fails_witness :
    ∃ e, create_order dbZero buyerU odZero5 "ord-1" 0 = (dbZero, .error e) :=
  createOrder_soldOut_positive_fails dbZero buyerU odZero5 "ord-1" 0 prodZero
    (by decide) (by decide) (by decide)

/-- C9: `create_order` places no lower bound on the quantity. For a
buyer and an existing product with the data model's non-negative
availability, any quantity ≤ 0 passes the inventory check (also at
availability 0), an order is created, and a strictly negative
quantity makes the decrement increase `quantity_available` by the
quantity's absolute value. -/
theorem createOrder_no_lower_bound
    (db : DB) (u : User) (od : OrderCreate) (nid : String) (now : Nat)
    (p : CoalAshProduct)
    (hr : u.role = UserRole.buyer)
    (hfind : db.products.find? (fun q => q.id == od.product_id) = some p)
    (hnonneg : 0 ≤ p.quantity_available)
    (hq : od.quantity ≤ 0) :
    (create_order db u od nid now).2 = .ok (newOrder u od p nid now)
      ∧ (create_order db u od nid now).1.products.find?
          (fun q => q.id == od.product_id)
        = some { p with quantity_available := p.quantity_available - od.quantity }
      ∧ (od.quantity < 0 →
          p.quantity_available - od.quantity
            = p.quantity_available + |od.quantity|) := by
  have hlt : ¬ p.quantity_available < od.quantity := by omega
  have hfst : (create_order db u od nid now).1.products
      = updateFirst (fun q => q.id == od.product_id)
          (fun q => { q with quantity_available := q.quantity_available - od.quantity })
          db.products := by
    rw [create_order_ok_eq db u od nid now p hr hfind hlt]
  refine ⟨?_, ?_, ?_⟩
  · rw [create_order_ok_eq db u od nid now p hr hfind hlt]
  · rw [hfst, find?_updateFirst (fun q => q.id == od.product_id)
      (fun q => { q with quantity_available := q.quantity_available - od.quantity })
      (fun x hx => hx) db.products, hfind]
    rfl
  · intro hneg
    rw [abs_of_neg hneg]
    ring

/-- Witness for C9: a −5-ton order against 100 tons available is
accepted and raises the stock to 105. -/
theorem createOrder_no_lower_bound_witness :
    (create_order db1 buyerU odNeg5 "ord-1" 0).2
        = .ok (newOrder buyerU odNeg5 prodA "ord-1" 0)
      ∧ (create_order db1 buyerU odNeg5 "ord-1" 0).1.products.find?
          (fun q => q.id == odNeg5.product_id)
        = some { prodA with quantity_available := prodA.quantity_available - odNeg5.quantity }
      ∧ (odNeg5.quantity < 0 →
          prodA.quantity_available - odNeg5.quantity
            = prodA.quantity_available + |odNeg5.quantity|) :=
  createOrder_no_lower_bound db1 buyerU odNeg5 "ord-1" 0 prodA
    rfl (by decide) (by decide) (by decide)

/-- C5 counterexample: the 10-element cap breaks output-level
symmetry. In a store with one active product and eleven identical
active matching demands, the product appears among the eleventh
demand's matched products, yet that demand is cut off by the cap and
does not appear among the product's matched demands. -/
theorem matching_cap_breaks_symmetry_counterexample :
    prodA.is_active = true
      ∧ (mkMatchingDemand 10).is_active = true
      ∧ mkMatchingDemand 10 ∈ db11.demands
      ∧ prodA ∈ matching_products_for db11 (mkMatchingDemand 10)
      ∧ ¬ mkMatchingDemand 10 ∈ matching_demands_for db11 prodA := by
  decide

/-- C5 amended: matching is symmetric at the predicate level. If an
active product P appears among an active demand D's matched products
under the buyer-side rule, then D satisfies the supplier-side rule for
P — hence D is among the supplier-side candidates, and appears in P's
matched demands whenever the 10-element cap does not cut it off. -/
theorem matching_predicate_symmetry
    (db : DB) (p : CoalAshProduct) (d : DemandRequest)
    (hdmem : d ∈ db.demands)
    (hdact : d.is_active = true)
    (hp : p ∈ matching_products_for db d) :
    supplierMatchPred p d = true
      ∧ d ∈ db.demands.filter (supplierMatchPred p)
      ∧ ((db.demands.filter (supplierMatchPred p)).length ≤ 10 →
          d ∈ matching_demands_for db p) := by
  have hp' : buyerMatchPred d p = true :=
    (List.mem_filter.mp (List.mem_of_mem_take hp)).2
  simp only [buyerMatchPred, Bool.and_eq_true, beq_iff_eq, decide_eq_true_eq] at hp'
  obtain ⟨⟨⟨hash, hqty⟩, hprice⟩, hact⟩ := hp'
  have hsup : supplierMatchPred p d = true := by
    simp only [supplierMatchPred, Bool.and_eq_true, beq_iff_eq, decide_eq_true_eq,
      ge_iff_le]
    exact ⟨⟨⟨hash.symm, hqty⟩, hprice⟩, hdact⟩
  have hmemf : d ∈ db.demands.filter (supplierMatchPred p) :=
    List.mem_filter.mpr ⟨hdmem, hsup⟩
  refine ⟨hsup, hmemf, fun hlen => ?_⟩
  rw [matching_demands_for, List.take_of_length_le hlen]
  exact hmemf

/-- Witness for C5 amended: `prodA` matches `demand80` buyer-side, so
`demand80` is among `prodA`'s supplier-side matches in `db1`. -/
theorem matching_predicate_symmetry_witness :
    supplierMatchPred prodA demand80 = true
      ∧ demand80 ∈ db1.demands.filter (supplierMatchPred prodA)
      ∧ ((db1.demands.filter (supplierMatchPred prodA)).length ≤ 10 →
          demand80 ∈ matching_demands_for db1 prodA) :=
  matching_predicate_symmetry db1 prodA demand80 (by decide) (by decide) (by decide)

/-- C7: every suggestion group returned by `get_matching_suggestions`
carries at most 10 matched counterpart entities, for every caller and
store state. -/
theorem matching_cap_per_anchor
    (db : DB) (u : User) (s : Suggestion)
    (hs : s ∈ get_matching_suggestions db u) :
    s.counterpartCount ≤ 10 := by
  unfold get_matching_suggestions at hs
  by_cases hb : u.role = UserRole.buyer
  · rw [if_pos hb] at hs
    obtain ⟨d, _, hf⟩ := List.mem_filterMap.mp hs
    by_cases he : (matching_products_for db d).isEmpty
    · simp [he] at hf
    · simp only [he, if_false, Bool.false_eq_true, Option.some.injEq] at hf
      rw [← hf]
      simp only [Suggestion.counterpartCount, matching_products_for]
      rw [List.length_take]
      omega
  · rw [if_neg hb] at hs
    by_cases hsup : u.role = UserRole.supplier
    · rw [if_pos hsup] at hs
      obtain ⟨q, _, hf⟩ := List.mem_filterMap.mp hs
      by_cases he : (matching_demands_for db q).isEmpty
      · simp [he] at hf
      · simp only [he, if_false, Bool.false_eq_true, Option.some.injEq] at hf
        rw [← hf]
        simp only [Suggestion.counterpartCount, matching_demands_for]
        rw [List.length_take]
        omega
    · rw [if_neg hsup] at hs
      simp at hs

/-- Witness for C7: the one suggestion group the buyer gets in `db1`
carries a single counterpart, within the cap. -/
theorem matching_cap_per_anchor_witness :
    (Suggestion.buyerGroup demand80 [prodA]).counterpartCount ≤ 10 :=
  matching_cap_per_anchor db1 buyerU (Suggestion.buyerGroup demand80 [prodA])
    (by decide)

/-- C8: for a supplier caller the dashboard returns the count of the
supplier's own products, the count of their own orders and, as
`total_revenue`, the sum of `total_amount` over their own orders —
a sum that is 0 when they have no orders. -/
theorem supplier_dashboard_contents
    (db : DB) (u : User) (hr : u.role = UserRole.supplier) :
    get_dashboard_analytics db u
      = some (.supplierBoard
          (db.products.filter (fun p => p.supplier_id == u.id)).length
          (db.orders.filter (fun o => o.supplier_id == u.id)).length
          (sumTotalAmount (db.orders.filter (fun o => o.supplier_id == u.id)))
          ((sortByCreatedDesc (db.orders.filter (fun o => o.supplier_id == u.id))).take 5))
      ∧ (db.orders.filter (fun o => o.supplier_id == u.id) = [] →
          sumTotalAmount (db.orders.filter (fun o => o.supplier_id == u.id)) = 0) := by
  constructor
  · simp only [get_dashboard_analytics, hr]
    rw [revenue_head_eq_sum]
    simp
  · intro h
    rw [h]
    rfl

/-- Witness for C8: in `db1` the supplier owns one product and no
orders, so the dashboard reports 1 product, 0 orders, revenue 0. -/
theorem supplier_dashboard_contents_witness :
    get_dashboard_analytics db1 supplierU
      = some (.supplierBoard
          (db1.products.filter (fun p => p.supplier_id == supplierU.id)).length
          (db1.orders.filter (fun o => o.supplier_id == supplierU.id)).length
          (sumTotalAmount (db1.orders.filter (fun o => o.supplier_id == supplierU.id)))
          ((sortByCreatedDesc (db1.orders.filter (fun o => o.supplier_id == supplierU.id))).take 5))
      ∧ (db1.orders.filter (fun o => o.supplier_id == supplierU.id) = [] →
          sumTotalAmount (db1.orders.filter (fun o => o.supplier_id == supplierU.id)) = 0) :=
  supplier_dashboard_contents db1 supplierU rfl

/-- C10: a logistics caller matches none of the dashboard's role
branches; the endpoint falls off the `if`/`elif` chain and returns
`None` — no summary object and no error. -/
theorem logistics_dashboard_none
    (db : DB) (u : User) (hr : u.role = UserRole.logistics) :
    get_dashboard_analytics db u = none := by
  simp [get_dashboard_analytics, hr]

/-- Witness for C10: the logistics account gets `none` on `db1`. -/
theorem logistics_dashboard_none_witness :
    get_dashboard_analytics db1 logisticsU = none :=
  logistics_dashboard_none db1 logisticsU rfl

end CoalAsh
